import Mathlib

/-!
Verification of the myFlix REST server (src/index.js) against its
natural-language specification.

The embedding models the database as an explicit state (`DB`), the mongoose
single-document primitives (`findOne`, `findOneAndUpdate` with `$set`, `$push`
and `$pull`, `findOneAndRemove`) as pure functions on that state, and every
route handler of index.js as a function from a bearer credential, the route
parameters and body, and the current state to a `Response` paired with the
next state.
-/

namespace MyFlix

/-- Genre subdocument of a movie record (name and description). -/
structure Genre where
  Name : String
  Description : String
deriving DecidableEq, Repr

/-- Director subdocument of a movie record. -/
structure Director where
  Name : String
  Bio : String
deriving DecidableEq, Repr

/-- Movie record as read by the handlers of index.js. -/
structure Movie where
  Title : String
  Genre : Genre
  Director : Director
deriving DecidableEq, Repr

/-- User record as stored: the fields written by POST /users and
PUT /users/:Username in index.js (userName, password, email, Birthday)
plus the FavoriteMovies array mutated by the favorites routes. -/
structure User where
  userName : String
  password : String
  email : String
  Birthday : Option String
  FavoriteMovies : List String
deriving DecidableEq, Repr

/-- The persistent state: the Users and Movies collections. -/
structure DB where
  users : List User
  movies : List Movie
deriving DecidableEq, Repr

/-- Modelled from the spec: the bearer credential presented with a request.
The login flow and JWT strategy live in auth.js and passport.js, which are
not under src; section 4.1 of the spec lists the failure shapes (missing,
malformed, rejected by verification, expired) and the one success shape
(a verified principal). -/
inductive Credential where
  | missing
  | malformed
  | rejected
  | expired
  | valid (username : String)
deriving DecidableEq, Repr

/-- Modelled from the spec: the Authenticator accepts exactly a verifiable,
unexpired credential. -/
def Credential.isValid : Credential → Bool
  | .valid _ => true
  | _ => false

/-- Response bodies produced by the handlers in index.js: res.send of a text,
res.json of a user (possibly null), of arrays, of a genre or director
subdocument, of the favorites array, or of the validation-error list. -/
inductive Body where
  | text (s : String)
  | jsonUser (u : Option User)
  | jsonUsers (us : List User)
  | jsonMovies (ms : List Movie)
  | jsonMovie (m : Option Movie)
  | jsonGenre (g : Genre)
  | jsonDirector (d : Director)
  | jsonFavs (fs : List String)
  | jsonErrors (es : List String)
  | error (s : String)
deriving DecidableEq, Repr

/-- An HTTP response: status code and body. -/
structure Response where
  status : Nat
  body : Body
deriving DecidableEq, Repr

/-- Modelled from the spec: `Users.hashPassword` is defined in models.js,
which is not under src; section 3 of the spec specifies the stored
PasswordHash as one-way derived from the plaintext and never the plaintext
itself. Modelled as a tagging injection, so the hash of a plaintext is
never the plaintext. -/
def hashPassword (p : String) : String := "$2b$10$" ++ p

/-- `Users.findOne with a userName filter`: first user whose userName
matches. -/
def findOneUser (db : DB) (name : String) : Option User :=
  db.users.find? (fun u => u.userName == name)

/-- Apply `f` to the first user in the list whose userName matches `name`,
returning the updated document (mongoose option `new : true`) and the
updated list; `(none, l)` when no user matches. This is the shape shared by
`findOneAndUpdate` with `$set`, `$push` and `$pull` in index.js. -/
def updateFirst (f : User → User) (name : String) : List User → Option User × List User
  | [] => (none, [])
  | u :: rest =>
    if u.userName == name then (some (f u), f u :: rest)
    else
      let p := updateFirst f name rest
      (p.1, u :: p.2)

/-- `Users.findOneAndUpdate` on a userName filter, lifted to the state. -/
def findOneAndUpdate (db : DB) (name : String) (f : User → User) : Option User × DB :=
  let p := updateFirst f name db.users
  (p.1, { db with users := p.2 })

/-- Remove the first user whose userName matches (`Users.findOneAndRemove`),
returning the removed document and the remaining list. -/
def removeFirst (name : String) : List User → Option User × List User
  | [] => (none, [])
  | u :: rest =>
    if u.userName == name then (some u, rest)
    else
      let p := removeFirst name rest
      (p.1, u :: p.2)

/-- The registration body read by POST /users: req.body.userName,
req.body.password, req.body.email, req.body.Birthday; each field may be
absent. -/
structure RegBody where
  userName : Option String
  password : Option String
  email : Option String
  Birthday : Option String
deriving DecidableEq, Repr

/-- The validator library's isAlphanumeric (ASCII letters and digits, at
least one character), as configured by the chain in index.js line 240. -/
def isAlphanumericStr (s : String) : Bool :=
  !s.data.isEmpty && s.data.all (fun c => c.isAlpha || c.isDigit)

/-- Split a character list at every occurrence of a separator character. -/
def splitOnChar (c : Char) : List Char → List (List Char)
  | [] => [[]]
  | x :: xs =>
    let r := splitOnChar c xs
    if x == c then [] :: r
    else
      match r with
      | [] => [[x]]
      | y :: ys => (x :: y) :: ys

/-- Modelled from the spec: `isEmail` of the external validator library
(not under src); section 4.2 requires email syntax validity. Modelled as
one at-sign separating a nonempty local part from a nonempty domain that
contains a dot; no claim depends on its exact semantics. -/
def isEmailStr (s : String) : Bool :=
  match splitOnChar '@' s.data with
  | [lp, dom] => !lp.isEmpty && !dom.isEmpty && dom.contains '.'
  | _ => false

/-- index.js line 239: userName isLength of at least 5 (an absent field
fails the chain). -/
def checkUserNameLen (b : RegBody) : Bool :=
  match b.userName with
  | some s => decide (5 ≤ s.length)
  | none => false

/-- index.js line 240: userName isAlphanumeric. -/
def checkUserNameAlnum (b : RegBody) : Bool :=
  match b.userName with
  | some s => isAlphanumericStr s
  | none => false

/-- index.js line 241: password not isEmpty. -/
def checkPassword (b : RegBody) : Bool :=
  match b.password with
  | some s => !s.isEmpty
  | none => false

/-- index.js line 242: email isEmail. -/
def checkEmail (b : RegBody) : Bool :=
  match b.email with
  | some s => isEmailStr s
  | none => false

def msgUserRequired : String := "Username is required"

def msgUserAlnum : String := "Username contains non alphanumeric characters - not allowed."

def msgPasswordRequired : String := "Password is required"

def msgEmailInvalid : String := "Email does not appear to be valid"

/-- `validationResult(req).array()`: the validation chain of POST /users
runs every declared rule and collects every violation, in declaration
order. -/
def validationErrors (b : RegBody) : List String :=
  (if checkUserNameLen b then [] else [msgUserRequired]) ++
  (if checkUserNameAlnum b then [] else [msgUserAlnum]) ++
  (if checkPassword b then [] else [msgPasswordRequired]) ++
  (if checkEmail b then [] else [msgEmailInvalid])

/-- POST /users (index.js lines 233-272): if the validation-error list is
nonempty respond 422 with the full array; otherwise hash the password,
look the userName up, respond 400 when it already exists, and otherwise
create the record (hashed password, empty favorites) and respond 201 with
it. -/
def postUsers (b : RegBody) (db : DB) : Response × DB :=
  let errors := validationErrors b
  if errors.isEmpty then
    let hashedPassword := hashPassword (b.password.getD "")
    match findOneUser db (b.userName.getD "") with
    | some _ => (⟨400, Body.text ((b.userName.getD "") ++ "already exists")⟩, db)
    | none =>
      let newUser : User :=
        { userName := b.userName.getD ""
          password := hashedPassword
          email := b.email.getD ""
          Birthday := b.Birthday
          FavoriteMovies := [] }
      (⟨201, Body.jsonUser (some newUser)⟩, { db with users := db.users ++ [newUser] })
  else
    (⟨422, Body.jsonErrors errors⟩, db)

/-- The unauthorized outcome the guard short-circuits with. -/
def unauthorized : Response := ⟨401, Body.text "Unauthorized"⟩

/-- `passport.authenticate("jwt", session false)` composed before a
handler: the handler runs only on a valid credential; otherwise the guard
responds 401 and the handler is never invoked (modelled from the spec,
section 4.1, the strategy itself being outside src). -/
def withAuth (cred : Credential) (handler : DB → Response × DB) (db : DB) : Response × DB :=
  if cred.isValid then handler db else (unauthorized, db)

/-- GET /movies (lines 99-110): guarded; 200 with every movie record. -/
def getMovies (cred : Credential) (db : DB) : Response × DB :=
  withAuth cred (fun db => (⟨200, Body.jsonMovies db.movies⟩, db)) db

/-- GET /users (lines 123-134): guarded; 200 with every user record. -/
def getUsers (cred : Credential) (db : DB) : Response × DB :=
  withAuth cred (fun db => (⟨200, Body.jsonUsers db.users⟩, db)) db

/-- GET /movies/:title (lines 145-156): guarded; res.json of findOne
(null when absent), default status 200. -/
def getMovie (cred : Credential) (title : String) (db : DB) : Response × DB :=
  withAuth cred
    (fun db => (⟨200, Body.jsonMovie (db.movies.find? (fun m => m.Title == title))⟩, db)) db

/-- GET /users/:Username (lines 167-178): guarded; res.json of findOne
(null when absent), default status 200. -/
def getUser (cred : Credential) (username : String) (db : DB) : Response × DB :=
  withAuth cred (fun db => (⟨200, Body.jsonUser (findOneUser db username)⟩, db)) db

/-- GET /genres/:genreName (lines 189-200): guarded; findOne on Genre.Name,
then res.json(movie.Genre). When no movie matches, the null dereference
throws inside the then-callback and the attached catch responds 500. -/
def getGenre (cred : Credential) (genreName : String) (db : DB) : Response × DB :=
  withAuth cred
    (fun db =>
      match db.movies.find? (fun m => m.Genre.Name == genreName) with
      | some movie => (⟨200, Body.jsonGenre movie.Genre⟩, db)
      | none => (⟨500, Body.error "Error"⟩, db)) db

/-- GET /directors/:Name (lines 211-222): guarded; findOne on
Director.Name, then res.json(movie.Director); the absent case throws and
the catch responds 500, exactly as for genres. -/
def getDirector (cred : Credential) (name : String) (db : DB) : Response × DB :=
  withAuth cred
    (fun db =>
      match db.movies.find? (fun m => m.Director.Name == name) with
      | some movie => (⟨200, Body.jsonDirector movie.Director⟩, db)
      | none => (⟨500, Body.error "Error"⟩, db)) db

/-- The body read by PUT /users/:Username: req.body.userName,
req.body.password, req.body.email, req.body.birthday (lowercase b in the
source). -/
structure PutBody where
  userName : Option String
  password : Option String
  email : Option String
  birthday : Option String
deriving DecidableEq, Repr

/-- The `$set` document of PUT /users/:Username (lines 292-298): userName,
password (stored verbatim — the hashing line is commented out in the
source), email, Birthday; an absent body field is stripped from the update
and leaves the stored field unchanged. -/
def applyPut (b : PutBody) (u : User) : User :=
  { u with
    userName := b.userName.getD u.userName
    password := b.password.getD u.password
    email := b.email.getD u.email
    Birthday := match b.birthday with | some v => some v | none => u.Birthday }

/-- PUT /users/:Username (lines 286-309): guarded; no validation chain;
findOneAndUpdate with the `$set` document and `new : true`; the callback
receives no error in this model, so it responds res.json(updatedUser)
(null and default status 200 when no user matches). -/
def putUser (cred : Credential) (username : String) (b : PutBody) (db : DB) : Response × DB :=
  withAuth cred
    (fun db =>
      let p := findOneAndUpdate db username (applyPut b)
      (⟨200, Body.jsonUser p.1⟩, p.2)) db

/-- The `$push` of POST /users/:userName/favoriteMovies/:MovieID (line
325): append the MovieID to FavoriteMovies unconditionally. -/
def pushFavorite (movieId : String) (u : User) : User :=
  { u with FavoriteMovies := u.FavoriteMovies ++ [movieId] }

/-- The `$pull` of DELETE /users/:userName/movies/:title (line 377):
remove every occurrence of the value from FavoriteMovies. -/
def pullFavorite (title : String) (u : User) : User :=
  { u with FavoriteMovies := u.FavoriteMovies.filter (fun m => !(m == title)) }

/-- POST /users/:userName/favoriteMovies/:MovieID (lines 320-336): guarded;
findOneAndUpdate with `$push` and `new : true`; responds
res.json(updatedUser) (null, status 200, when no user matches). -/
def addFavorite (cred : Credential) (userName movieId : String) (db : DB) : Response × DB :=
  withAuth cred
    (fun db =>
      let p := findOneAndUpdate db userName (pushFavorite movieId)
      (⟨200, Body.jsonUser p.1⟩, p.2)) db

/-- DELETE /users/:userName/movies/:title (lines 374-388): no
authentication middleware is attached, so the handler runs for every
request and the presented credential is never examined; findOneAndUpdate
with `$pull` and `new : true`; responds res.json(updatedUser). -/
def removeFavorite (_cred : Credential) (userName title : String) (db : DB) : Response × DB :=
  let p := findOneAndUpdate db userName (pullFavorite title)
  (⟨200, Body.jsonUser p.1⟩, p.2)

/-- DELETE /users/:userName (lines 347-362): guarded; findOneAndRemove;
400 with a was-not-found text when no user matches, else 200 with a
was-deleted text. -/
def deleteUser (cred : Credential) (userName : String) (db : DB) : Response × DB :=
  withAuth cred
    (fun db =>
      let p := removeFirst userName db.users
      match p.1 with
      | none => (⟨400, Body.text (userName ++ " was not found")⟩, db)
      | some _ => (⟨200, Body.text (userName ++ " was deleted")⟩, { db with users := p.2 })) db

/-- GET /users/favorites/:userName (lines 399-409): guarded; findOne, then
res.json(user.FavoriteMovies); when no user matches, the null dereference
throws inside the then-callback and the attached catch responds 500. -/
def listFavorites (cred : Credential) (userName : String) (db : DB) : Response × DB :=
  withAuth cred
    (fun db =>
      match findOneUser db userName with
      | some u => (⟨200, Body.jsonFavs u.FavoriteMovies⟩, db)
      | none => (⟨500, Body.error "Error"⟩, db)) db

/-- A favorites call: the add route or the remove route, with the user it
addresses and the movie reference it carries. -/
inductive FavOp where
  | add (user movie : String)
  | remove (user movie : String)
deriving DecidableEq, Repr

/-- The movie reference a favorites call carries. -/
def FavOp.movie : FavOp → String
  | .add _ m => m
  | .remove _ m => m

/-- Run one favorites call through the corresponding route handler (the
add route with a valid credential, the remove route which is unguarded)
and keep the resulting state. -/
def applyFavOp (db : DB) : FavOp → DB
  | .add u m => (addFavorite (Credential.valid u) u m db).2
  | .remove u m => (removeFavorite (Credential.valid u) u m db).2

/-- Run a sequence of favorites calls left to right. -/
def applyFavOps (db : DB) (ops : List FavOp) : DB :=
  ops.foldl applyFavOp db

/-- The registration payload of the concrete scenario in section 8 of the
spec. -/
def regFan : RegBody := ⟨some "MovieFan1", some "hunter2", some "a@b.com", none⟩

/-- The empty database. -/
def dbEmpty : DB := ⟨[], []⟩

/-- The state after registering `regFan` on the empty database. -/
def dbFan : DB := (postUsers regFan dbEmpty).2

/-- The stored record that registration of `regFan` creates. -/
def fanUser : User :=
  { userName := "MovieFan1"
    password := hashPassword "hunter2"
    email := "a@b.com"
    Birthday := none
    FavoriteMovies := [] }

/-- A profile-update body that resubmits the plaintext password of the
scenario. -/
def putFanPlain : PutBody := ⟨some "MovieFan1", some "hunter2", some "a@b.com", none⟩

/-- A registration payload violating all four declared field rules. -/
def regBad : RegBody := ⟨some "ab!", some "", some "nope", none⟩

/-- The record left in the store when the scenario profile update resubmits
the plaintext password. -/
def fanUserPlain : User :=
  { userName := "MovieFan1"
    password := "hunter2"
    email := "a@b.com"
    Birthday := none
    FavoriteMovies := [] }

/-- A profile-update body violating the registration field rules. -/
def putBad : PutBody := ⟨some "ab!", some "", some "nope", none⟩

/-- The registration-shaped view of a profile-update body, for evaluating
the declared field rules on it. -/
def regOfPut (b : PutBody) : RegBody := ⟨b.userName, b.password, b.email, none⟩

/-- The scenario user with the reference abc123 already among its
favorites. -/
def fanUserFav : User :=
  { userName := "MovieFan1"
    password := hashPassword "hunter2"
    email := "a@b.com"
    Birthday := none
    FavoriteMovies := ["abc123"] }

/-- A state storing `fanUserFav`. -/
def dbFav : DB := ⟨[fanUserFav], []⟩

lemma updateFirst_fst (f : User → User) (name : String) (l : List User) :
    (updateFirst f name l).1 = (l.find? (fun x => x.userName == name)).map f := by
  induction l with
  | nil => rfl
  | cons u rest ih =>
    cases h : (u.userName == name) with
    | true => simp [updateFirst, h, List.find?_cons, Option.map]
    | false => simp [updateFirst, h, List.find?_cons, ih]

lemma find?_updateFirst_self (f : User → User) (hf : ∀ x, (f x).userName = x.userName)
    (name : String) (l : List User) :
    ((updateFirst f name l).2.find? (fun x => x.userName == name))
      = (l.find? (fun x => x.userName == name)).map f := by
  induction l with
  | nil => rfl
  | cons u rest ih =>
    cases h : (u.userName == name) with
    | true => simp [updateFirst, h, List.find?_cons, hf, Option.map]
    | false => simp [updateFirst, h, List.find?_cons, ih]

lemma updateFirst_snd_of_none (f : User → User) (name : String) (l : List User)
    (h : l.find? (fun x => x.userName == name) = none) :
    (updateFirst f name l).2 = l := by
  induction l with
  | nil => rfl
  | cons u rest ih =>
    cases hu : (u.userName == name) with
    | true => simp [List.find?_cons, hu] at h
    | false =>
      rw [List.find?_cons_of_neg _ (by simp [hu])] at h
      simp [updateFirst, hu, ih h]

lemma find?_updateFirst_mem (f : User → User) (m : String)
    (hf1 : ∀ x, (f x).userName = x.userName)
    (hf2 : ∀ x, m ∈ (f x).FavoriteMovies ↔ m ∈ x.FavoriteMovies)
    (name u : String) (l : List User) :
    ((updateFirst f name l).2.find? (fun x => x.userName == u)).map
        (fun x => decide (m ∈ x.FavoriteMovies))
      = (l.find? (fun x => x.userName == u)).map (fun x => decide (m ∈ x.FavoriteMovies)) := by
  induction l with
  | nil => rfl
  | cons u0 rest ih =>
    cases h1 : (u0.userName == name) with
    | true =>
      cases h2 : (u0.userName == u) with
      | true =>
        simp only [updateFirst, h1, if_true]
        rw [List.find?_cons_of_pos _ (by simp [hf1, h2]),
          List.find?_cons_of_pos _ (by simp [h2])]
        simp only [Option.map_some']
        exact congrArg some (decide_eq_decide.mpr (hf2 u0))
      | false =>
        simp only [updateFirst, h1, if_true]
        rw [List.find?_cons_of_neg _ (by simp [hf1, h2]),
          List.find?_cons_of_neg _ (by simp [h2])]
    | false =>
      cases h2 : (u0.userName == u) with
      | true =>
        simp only [updateFirst, h1]
        rw [if_neg (by simp [h1])]
        rw [List.find?_cons_of_pos _ (by simp [h2]), List.find?_cons_of_pos _ (by simp [h2])]
      | false =>
        simp only [updateFirst, h1]
        rw [if_neg (by simp [h1])]
        rw [List.find?_cons_of_neg _ (by simp [h2]), List.find?_cons_of_neg _ (by simp [h2])]
        exact ih

lemma mem_fav_applyFavOp (db : DB) (op : FavOp) (m u : String) (h : op.movie ≠ m) :
    (((applyFavOp db op).users.find? (fun x => x.userName == u)).map
        (fun x => decide (m ∈ x.FavoriteMovies)))
      = ((db.users.find? (fun x => x.userName == u)).map
        (fun x => decide (m ∈ x.FavoriteMovies))) := by
  cases op with
  | add u0 m0 =>
    have hm : m0 ≠ m := h
    have key := find?_updateFirst_mem (pushFavorite m0) m (fun x => rfl)
      (fun x => by
        simp only [pushFavorite, List.mem_append, List.mem_singleton]
        exact or_iff_left (fun hmm => hm hmm.symm))
      u0 u db.users
    simpa [applyFavOp, addFavorite, withAuth, Credential.isValid, findOneAndUpdate] using key
  | remove u0 m0 =>
    have hm : m0 ≠ m := h
    have key := find?_updateFirst_mem (pullFavorite m0) m (fun x => rfl)
      (fun x => by
        simp only [pullFavorite, List.mem_filter, Bool.not_eq_eq_eq_not, Bool.not_true,
          beq_eq_false_iff_ne, ne_eq]
        exact and_iff_left (fun hmm => hm hmm.symm))
      u0 u db.users
    simpa [applyFavOp, removeFavorite, findOneAndUpdate] using key

lemma mem_fav_applyFavOps (ops : List FavOp) (db : DB) (m u : String)
    (h : ∀ op ∈ ops, FavOp.movie op ≠ m) :
    (((applyFavOps db ops).users.find? (fun x => x.userName == u)).map
        (fun x => decide (m ∈ x.FavoriteMovies)))
      = ((db.users.find? (fun x => x.userName == u)).map
        (fun x => decide (m ∈ x.FavoriteMovies))) := by
  induction ops generalizing db with
  | nil => rfl
  | cons op ops ih =>
    have h1 : FavOp.movie op ≠ m := h op (List.mem_cons_self op ops)
    have h2 : ∀ o ∈ ops, FavOp.movie o ≠ m := fun o ho => h o (List.mem_cons_of_mem op ho)
    show (((applyFavOps (applyFavOp db op) ops).users.find? _).map _) = _
    rw [ih (applyFavOp db op) h2, mem_fav_applyFavOp db op m u h1]

/-- Claim C1: the spec states that the plaintext password supplied by the
client never appears in the stored record or in any response body, the
stored password field being always a one-way hash of the plaintext.
Registration does store the hash, but PUT /users/:Username stores
req.body.password verbatim — the hashing line is commented out at
src/index.js lines 294-295 — and returns the record in the response, so
after the section-8 scenario registration followed by a profile update
resubmitting the plaintext, the stored password field and the response
body hold the plaintext itself. This theorem evaluates the code at that
failing input. -/
theorem C1_put_stores_plaintext :
    ((findOneUser dbFan "MovieFan1").map User.password = some (hashPassword "hunter2")
      ∧ hashPassword "hunter2" ≠ "hunter2")
    ∧ ((findOneUser (putUser (Credential.valid "MovieFan1") "MovieFan1" putFanPlain dbFan).2
          "MovieFan1").map User.password = some "hunter2"
      ∧ (putUser (Credential.valid "MovieFan1") "MovieFan1" putFanPlain dbFan).1
          = ⟨200, Body.jsonUser (some fanUserPlain)⟩) := by decide

/-- Claim C2: every request to a protected route presented without a valid
bearer credential (missing, malformed, rejected or expired) receives the
401 unauthorized outcome, the route handler is never invoked, and the
state is unchanged — for each of the ten guarded routes of index.js. -/
theorem C2_invalid_credential_rejected (cred : Credential) (h : cred.isValid = false)
    (db : DB) (name title g d mid : String) (b : PutBody) :
    getMovies cred db = (unauthorized, db)
    ∧ getUsers cred db = (unauthorized, db)
    ∧ getMovie cred title db = (unauthorized, db)
    ∧ getUser cred name db = (unauthorized, db)
    ∧ getGenre cred g db = (unauthorized, db)
    ∧ getDirector cred d db = (unauthorized, db)
    ∧ putUser cred name b db = (unauthorized, db)
    ∧ addFavorite cred name mid db = (unauthorized, db)
    ∧ deleteUser cred name db = (unauthorized, db)
    ∧ listFavorites cred name db = (unauthorized, db) := by
  simp [getMovies, getUsers, getMovie, getUser, getGenre, getDirector, putUser,
    addFavorite, deleteUser, listFavorites, withAuth, h]

/-- Claim C2 witness: a missing credential against the scenario state. -/
theorem C2_invalid_credential_rejected_witness :
    Credential.isValid Credential.missing = false
    ∧ (getMovies Credential.missing dbFan = (unauthorized, dbFan)
      ∧ getUsers Credential.missing dbFan = (unauthorized, dbFan)
      ∧ getMovie Credential.missing "Lost" dbFan = (unauthorized, dbFan)
      ∧ getUser Credential.missing "MovieFan1" dbFan = (unauthorized, dbFan)
      ∧ getGenre Credential.missing "Drama" dbFan = (unauthorized, dbFan)
      ∧ getDirector Credential.missing "AlanBall" dbFan = (unauthorized, dbFan)
      ∧ putUser Credential.missing "MovieFan1" putFanPlain dbFan = (unauthorized, dbFan)
      ∧ addFavorite Credential.missing "MovieFan1" "abc123" dbFan = (unauthorized, dbFan)
      ∧ deleteUser Credential.missing "MovieFan1" dbFan = (unauthorized, dbFan)
      ∧ listFavorites Credential.missing "MovieFan1" dbFan = (unauthorized, dbFan)) :=
  ⟨by decide,
    C2_invalid_credential_rejected Credential.missing (by decide) dbFan "MovieFan1" "Lost"
      "Drama" "AlanBall" "abc123" putFanPlain⟩

/-- Claim C3: a registration payload violating one or more of the declared
field rules receives 422 carrying the full list of every violated rule
(not only the first), and the state is unchanged (no record created or
modified). -/
theorem C3_validation_collects_all (b : RegBody) (db : DB)
    (h : validationErrors b ≠ []) :
    postUsers b db = (⟨422, Body.jsonErrors (validationErrors b)⟩, db)
    ∧ (checkUserNameLen b = false → msgUserRequired ∈ validationErrors b)
    ∧ (checkUserNameAlnum b = false → msgUserAlnum ∈ validationErrors b)
    ∧ (checkPassword b = false → msgPasswordRequired ∈ validationErrors b)
    ∧ (checkEmail b = false → msgEmailInvalid ∈ validationErrors b) := by
  refine ⟨?_, ?_, ?_, ?_, ?_⟩
  · have hne : (validationErrors b).isEmpty = false := by
      cases hv : validationErrors b with
      | nil => exact absurd hv h
      | cons a l => rfl
    simp [postUsers, hne]
  · intro hc; simp [validationErrors, hc]
  · intro hc; simp [validationErrors, hc]
  · intro hc; simp [validationErrors, hc]
  · intro hc; simp [validationErrors, hc]

/-- Claim C3 witness: a payload violating all four rules at once. -/
theorem C3_validation_collects_all_witness :
    validationErrors regBad ≠ []
    ∧ (postUsers regBad dbFan = (⟨422, Body.jsonErrors (validationErrors regBad)⟩, dbFan)
      ∧ (checkUserNameLen regBad = false → msgUserRequired ∈ validationErrors regBad)
      ∧ (checkUserNameAlnum regBad = false → msgUserAlnum ∈ validationErrors regBad)
      ∧ (checkPassword regBad = false → msgPasswordRequired ∈ validationErrors regBad)
      ∧ (checkEmail regBad = false → msgEmailInvalid ∈ validationErrors regBad)) :=
  ⟨by decide, C3_validation_collects_all regBad dbFan (by decide)⟩

/-- Claim C4: a registration whose userName is already present among the
stored Users receives 400 and leaves the state unchanged (no new record);
the uniqueness lookup runs before any insertion in postUsers. -/
theorem C4_duplicate_username (b : RegBody) (db : DB) (u0 : User)
    (hv : validationErrors b = [])
    (hdup : findOneUser db (b.userName.getD "") = some u0) :
    postUsers b db = (⟨400, Body.text ((b.userName.getD "") ++ "already exists")⟩, db) := by
  simp [postUsers, hv, hdup]

/-- Claim C4 witness: re-registering the scenario user. -/
theorem C4_duplicate_username_witness :
    validationErrors regFan = []
    ∧ findOneUser dbFan (regFan.userName.getD "") = some fanUser
    ∧ postUsers regFan dbFan
        = (⟨400, Body.text ((regFan.userName.getD "") ++ "already exists")⟩, dbFan) :=
  ⟨by decide, by decide, C4_duplicate_username regFan dbFan fanUser (by decide) (by decide)⟩

/-- Claim C5 counterexample: against the scenario state, which stores no
user named ghost, the add route and the remove route respond 200 with a
null body and the list route responds 500 — none of the three signals
not-found (the repository's own not-found signaling, as in DELETE /users,
is a 400 with a was-not-found text). -/
theorem C5_counterexample :
    findOneUser dbFan "ghost" = none
    ∧ (addFavorite (Credential.valid "MovieFan1") "ghost" "abc123" dbFan).1
        = ⟨200, Body.jsonUser none⟩
    ∧ (removeFavorite (Credential.valid "MovieFan1") "ghost" "abc123" dbFan).1
        = ⟨200, Body.jsonUser none⟩
    ∧ (listFavorites (Credential.valid "MovieFan1") "ghost" dbFan).1
        = ⟨500, Body.error "Error"⟩ := by decide

/-- Claim C5 as amended: when the addressed user exists, addFavorite and
removeFavorite return the updated record and listFavorites returns the
current set; when no user matches the username, addFavorite and
removeFavorite respond 200 with a null body and leave the state
unchanged, and listFavorites responds 500 (the null dereference caught by
the generic error branch) — no favorites operation signals not-found. -/
theorem C5_amended_missing_user_behavior (cred : Credential) (hc : cred.isValid = true)
    (uname mid : String) (db dbE : DB) (u0 : User)
    (hnone : findOneUser db uname = none)
    (hsome : findOneUser dbE uname = some u0) :
    addFavorite cred uname mid db = (⟨200, Body.jsonUser none⟩, db)
    ∧ removeFavorite cred uname mid db = (⟨200, Body.jsonUser none⟩, db)
    ∧ listFavorites cred uname db = (⟨500, Body.error "Error"⟩, db)
    ∧ (addFavorite cred uname mid dbE).1 = ⟨200, Body.jsonUser (some (pushFavorite mid u0))⟩
    ∧ (removeFavorite cred uname mid dbE).1 = ⟨200, Body.jsonUser (some (pullFavorite mid u0))⟩
    ∧ listFavorites cred uname dbE = (⟨200, Body.jsonFavs u0.FavoriteMovies⟩, dbE) := by
  have hn : db.users.find? (fun x => x.userName == uname) = none := hnone
  have hs : dbE.users.find? (fun x => x.userName == uname) = some u0 := hsome
  refine ⟨?_, ?_, ?_, ?_, ?_, ?_⟩
  · simp [addFavorite, withAuth, hc, findOneAndUpdate, updateFirst_fst, hn,
      updateFirst_snd_of_none _ _ _ hn]
  · simp [removeFavorite, findOneAndUpdate, updateFirst_fst, hn,
      updateFirst_snd_of_none _ _ _ hn]
  · simp [listFavorites, withAuth, hc, findOneUser, hn]
  · simp [addFavorite, withAuth, hc, findOneAndUpdate, updateFirst_fst, hs]
  · simp [removeFavorite, findOneAndUpdate, updateFirst_fst, hs]
  · simp [listFavorites, withAuth, hc, findOneUser, hs]

/-- Claim C5 witness: the empty state misses the scenario user, the
scenario state stores it. -/
theorem C5_amended_missing_user_behavior_witness :
    (Credential.valid "MovieFan1").isValid = true
    ∧ findOneUser dbEmpty "MovieFan1" = none
    ∧ findOneUser dbFan "MovieFan1" = some fanUser
    ∧ (addFavorite (Credential.valid "MovieFan1") "MovieFan1" "abc123" dbEmpty
        = (⟨200, Body.jsonUser none⟩, dbEmpty)
      ∧ removeFavorite (Credential.valid "MovieFan1") "MovieFan1" "abc123" dbEmpty
        = (⟨200, Body.jsonUser none⟩, dbEmpty)
      ∧ listFavorites (Credential.valid "MovieFan1") "MovieFan1" dbEmpty
        = (⟨500, Body.error "Error"⟩, dbEmpty)
      ∧ (addFavorite (Credential.valid "MovieFan1") "MovieFan1" "abc123" dbFan).1
        = ⟨200, Body.jsonUser (some (pushFavorite "abc123" fanUser))⟩
      ∧ (removeFavorite (Credential.valid "MovieFan1") "MovieFan1" "abc123" dbFan).1
        = ⟨200, Body.jsonUser (some (pullFavorite "abc123" fanUser))⟩
      ∧ listFavorites (Credential.valid "MovieFan1") "MovieFan1" dbFan
        = (⟨200, Body.jsonFavs fanUser.FavoriteMovies⟩, dbFan)) :=
  ⟨by decide, by decide, by decide,
    C5_amended_missing_user_behavior (Credential.valid "MovieFan1") (by decide) "MovieFan1"
      "abc123" dbEmpty dbFan fanUser (by decide) (by decide)⟩

/-- Claim C6: for a stored user and any movie reference, the add route
followed by the list route yields a set containing the reference, and the
remove route afterward makes the list route yield a set without it,
independently of interleaved add/remove calls carrying different movie
references. -/
theorem C6_add_remove_list (db : DB) (u m : String) (u0 : User)
    (hu : findOneUser db u = some u0)
    (cred : Credential) (hc : cred.isValid = true)
    (ops1 ops2 : List FavOp)
    (h1 : ∀ op ∈ ops1, FavOp.movie op ≠ m)
    (h2 : ∀ op ∈ ops2, FavOp.movie op ≠ m) :
    (∃ l, (listFavorites cred u (applyFavOps (applyFavOp db (FavOp.add u m)) ops1)).1
        = ⟨200, Body.jsonFavs l⟩ ∧ m ∈ l)
    ∧ (∃ l, (listFavorites cred u (applyFavOps (applyFavOp
          (applyFavOps (applyFavOp db (FavOp.add u m)) ops1) (FavOp.remove u m)) ops2)).1
        = ⟨200, Body.jsonFavs l⟩ ∧ m ∉ l) := by
  have hs : db.users.find? (fun x => x.userName == u) = some u0 := hu
  have hd1 : (applyFavOp db (FavOp.add u m)).users
      = (updateFirst (pushFavorite m) u db.users).2 := by
    simp [applyFavOp, addFavorite, withAuth, Credential.isValid, findOneAndUpdate]
  have hfind1 : (applyFavOp db (FavOp.add u m)).users.find? (fun x => x.userName == u)
      = some (pushFavorite m u0) := by
    rw [hd1, find?_updateFirst_self (pushFavorite m) (fun x => rfl) u db.users, hs]
    rfl
  have hmap1 := mem_fav_applyFavOps ops1 (applyFavOp db (FavOp.add u m)) m u h1
  rw [hfind1] at hmap1
  simp only [Option.map_some'] at hmap1
  have hmem1 : decide (m ∈ (pushFavorite m u0).FavoriteMovies) = true := by
    simp [pushFavorite]
  rw [hmem1] at hmap1
  obtain ⟨u2, hu2, hdec2⟩ := Option.map_eq_some'.mp hmap1
  have hl1 : (listFavorites cred u (applyFavOps (applyFavOp db (FavOp.add u m)) ops1)).1
      = ⟨200, Body.jsonFavs u2.FavoriteMovies⟩ := by
    simp [listFavorites, withAuth, hc, findOneUser, hu2]
  have hd3 : (applyFavOp (applyFavOps (applyFavOp db (FavOp.add u m)) ops1)
        (FavOp.remove u m)).users
      = (updateFirst (pullFavorite m) u
          (applyFavOps (applyFavOp db (FavOp.add u m)) ops1).users).2 := by
    simp [applyFavOp, removeFavorite, findOneAndUpdate]
  have hfind3 : (applyFavOp (applyFavOps (applyFavOp db (FavOp.add u m)) ops1)
        (FavOp.remove u m)).users.find? (fun x => x.userName == u)
      = some (pullFavorite m u2) := by
    rw [hd3, find?_updateFirst_self (pullFavorite m) (fun x => rfl) u _, hu2]
    rfl
  have hmap2 := mem_fav_applyFavOps ops2
    (applyFavOp (applyFavOps (applyFavOp db (FavOp.add u m)) ops1) (FavOp.remove u m)) m u h2
  rw [hfind3] at hmap2
  simp only [Option.map_some'] at hmap2
  have hmem3 : decide (m ∈ (pullFavorite m u2).FavoriteMovies) = false := by
    simp [pullFavorite, List.mem_filter]
  rw [hmem3] at hmap2
  obtain ⟨u4, hu4, hdec4⟩ := Option.map_eq_some'.mp hmap2
  have hl4 : (listFavorites cred u (applyFavOps (applyFavOp
        (applyFavOps (applyFavOp db (FavOp.add u m)) ops1) (FavOp.remove u m)) ops2)).1
      = ⟨200, Body.jsonFavs u4.FavoriteMovies⟩ := by
    simp [listFavorites, withAuth, hc, findOneUser, hu4]
  exact ⟨⟨u2.FavoriteMovies, hl1, of_decide_eq_true hdec2⟩,
    ⟨u4.FavoriteMovies, hl4, of_decide_eq_false hdec4⟩⟩

/-- Claim C6 witness: the scenario user, the reference abc123, and an
interleaved add and remove of a different reference m2. -/
theorem C6_add_remove_list_witness :
    findOneUser dbFan "MovieFan1" = some fanUser
    ∧ (Credential.valid "MovieFan1").isValid = true
    ∧ (∀ op ∈ [FavOp.add "MovieFan1" "m2"], FavOp.movie op ≠ "abc123")
    ∧ (∀ op ∈ [FavOp.remove "MovieFan1" "m2"], FavOp.movie op ≠ "abc123")
    ∧ ((∃ l, (listFavorites (Credential.valid "MovieFan1") "MovieFan1"
          (applyFavOps (applyFavOp dbFan (FavOp.add "MovieFan1" "abc123"))
            [FavOp.add "MovieFan1" "m2"])).1
        = ⟨200, Body.jsonFavs l⟩ ∧ "abc123" ∈ l)
      ∧ (∃ l, (listFavorites (Credential.valid "MovieFan1") "MovieFan1"
          (applyFavOps (applyFavOp
            (applyFavOps (applyFavOp dbFan (FavOp.add "MovieFan1" "abc123"))
              [FavOp.add "MovieFan1" "m2"]) (FavOp.remove "MovieFan1" "abc123"))
            [FavOp.remove "MovieFan1" "m2"])).1
        = ⟨200, Body.jsonFavs l⟩ ∧ "abc123" ∉ l)) :=
  ⟨by decide, by decide, by decide, by decide,
    C6_add_remove_list dbFan "MovieFan1" "abc123" fanUser (by decide)
      (Credential.valid "MovieFan1") (by decide)
      [FavOp.add "MovieFan1" "m2"] [FavOp.remove "MovieFan1" "m2"]
      (by decide) (by decide)⟩

/-- Claim C7: the spec states every mutating route runs the validation
pipeline before the repository call, and in particular that
PUT /users/:Username evaluates the declared field rules and does not
update the record when any rule is violated; the route's own doc comment
in index.js (lines 275-277) states the same. The handler at lines 286-309
attaches no validation chain: a payload violating every declared rule is
written to the store and answered 200. This theorem evaluates the code at
that failing input. -/
theorem C7_put_skips_validation :
    validationErrors (regOfPut putBad) ≠ []
    ∧ (putUser (Credential.valid "MovieFan1") "MovieFan1" putBad dbFan).1
        = ⟨200, Body.jsonUser (some ⟨"ab!", "", "nope", none, []⟩)⟩
    ∧ (putUser (Credential.valid "MovieFan1") "MovieFan1" putBad dbFan).2
        = ⟨[⟨"ab!", "", "nope", none, []⟩], []⟩ := by decide

/-- Claim C8: DELETE /users/:userName/movies/:title carries no
authentication guard: its outcome is the same whatever credential is
presented, it never answers 401, and (no repository error arising in this
model) it performs the pull and answers 200 with the updated record. -/
theorem C8_remove_favorite_unguarded (cred : Credential) (uname title : String) (db : DB)
    (u0 : User) (h : findOneUser db uname = some u0) :
    removeFavorite cred uname title db = removeFavorite Credential.missing uname title db
    ∧ (removeFavorite cred uname title db).1.status ≠ 401
    ∧ (removeFavorite cred uname title db).1
        = ⟨200, Body.jsonUser (some (pullFavorite title u0))⟩ := by
  have hs : db.users.find? (fun x => x.userName == uname) = some u0 := h
  refine ⟨rfl, ?_, ?_⟩
  · simp [removeFavorite, findOneAndUpdate]
  · simp [removeFavorite, findOneAndUpdate, updateFirst_fst, hs]

/-- Claim C8 witness: the scenario user, with an expired credential. -/
theorem C8_remove_favorite_unguarded_witness :
    findOneUser dbFan "MovieFan1" = some fanUser
    ∧ (removeFavorite Credential.expired "MovieFan1" "abc123" dbFan
        = removeFavorite Credential.missing "MovieFan1" "abc123" dbFan
      ∧ (removeFavorite Credential.expired "MovieFan1" "abc123" dbFan).1.status ≠ 401
      ∧ (removeFavorite Credential.expired "MovieFan1" "abc123" dbFan).1
        = ⟨200, Body.jsonUser (some (pullFavorite "abc123" fanUser))⟩) :=
  ⟨by decide,
    C8_remove_favorite_unguarded Credential.expired "MovieFan1" "abc123" dbFan fanUser
      (by decide)⟩

/-- Claim C9: for a stored user, the add route appends the reference to
FavoriteMovies unconditionally — one more occurrence even when already
present — and the remove route removes every occurrence. -/
theorem C9_push_appends_pull_removes_all (cred : Credential) (hc : cred.isValid = true)
    (uname mid : String) (db : DB) (u0 : User)
    (h : findOneUser db uname = some u0) :
    (addFavorite cred uname mid db).1
        = ⟨200, Body.jsonUser (some (pushFavorite mid u0))⟩
    ∧ (pushFavorite mid u0).FavoriteMovies.count mid = u0.FavoriteMovies.count mid + 1
    ∧ (removeFavorite cred uname mid db).1
        = ⟨200, Body.jsonUser (some (pullFavorite mid u0))⟩
    ∧ (pullFavorite mid u0).FavoriteMovies.count mid = 0 := by
  have hs : db.users.find? (fun x => x.userName == uname) = some u0 := h
  refine ⟨?_, ?_, ?_, ?_⟩
  · simp [addFavorite, withAuth, hc, findOneAndUpdate, updateFirst_fst, hs]
  · simp [pushFavorite, List.count_append]
  · simp [removeFavorite, findOneAndUpdate, updateFirst_fst, hs]
  · exact List.count_eq_zero.mpr (fun hmem => by simp [pullFavorite, List.mem_filter] at hmem)

/-- Claim C9 witness: a user already holding the reference abc123 receives
a second occurrence from the add route, and the remove route erases
both. -/
theorem C9_push_appends_pull_removes_all_witness :
    (Credential.valid "MovieFan1").isValid = true
    ∧ findOneUser dbFav "MovieFan1" = some fanUserFav
    ∧ ((addFavorite (Credential.valid "MovieFan1") "MovieFan1" "abc123" dbFav).1
        = ⟨200, Body.jsonUser (some (pushFavorite "abc123" fanUserFav))⟩
      ∧ (pushFavorite "abc123" fanUserFav).FavoriteMovies.count "abc123"
        = fanUserFav.FavoriteMovies.count "abc123" + 1
      ∧ (removeFavorite (Credential.valid "MovieFan1") "MovieFan1" "abc123" dbFav).1
        = ⟨200, Body.jsonUser (some (pullFavorite "abc123" fanUserFav))⟩
      ∧ (pullFavorite "abc123" fanUserFav).FavoriteMovies.count "abc123" = 0) :=
  ⟨by decide, by decide,
    C9_push_appends_pull_removes_all (Credential.valid "MovieFan1") (by decide) "MovieFan1"
      "abc123" dbFav fanUserFav (by decide)⟩

/-- Claim C10: an authenticated genre or director lookup whose name
matches no stored movie answers 500 — the handler dereferences the absent
record and the rejection is caught by the generic error branch — not a
not-found signal and not a 200. -/
theorem C10_genre_director_absent_500 (cred : Credential) (hc : cred.isValid = true)
    (g d : String) (db : DB)
    (hg : db.movies.find? (fun m => m.Genre.Name == g) = none)
    (hd : db.movies.find? (fun m => m.Director.Name == d) = none) :
    getGenre cred g db = (⟨500, Body.error "Error"⟩, db)
    ∧ getDirector cred d db = (⟨500, Body.error "Error"⟩, db) := by
  constructor <;> simp [getGenre, getDirector, withAuth, hc, hg, hd]

/-- Claim C10 witness: the scenario state stores no movies at all. -/
theorem C10_genre_director_absent_500_witness :
    (Credential.valid "MovieFan1").isValid = true
    ∧ dbFan.movies.find? (fun m => m.Genre.Name == "Drama") = none
    ∧ dbFan.movies.find? (fun m => m.Director.Name == "AlanBall") = none
    ∧ (getGenre (Credential.valid "MovieFan1") "Drama" dbFan
        = (⟨500, Body.error "Error"⟩, dbFan)
      ∧ getDirector (Credential.valid "MovieFan1") "AlanBall" dbFan
        = (⟨500, Body.error "Error"⟩, dbFan)) :=
  ⟨by decide, by decide, by decide,
    C10_genre_director_absent_500 (Credential.valid "MovieFan1") (by decide) "Drama"
      "AlanBall" dbFan (by decide) (by decide)⟩

end MyFlix
